import Mathlib

/-!
Shallow embedding of the Intention Keeper mandala pipeline:
src/v32-word-counter/js/hash-encoder.js, src/v32-word-counter/js/mandala.js,
src/v32-word-counter/js/audio.js, src/v32-word-counter/js/app.js, and the
cosmic-style generator variant src/unnamed/part_007.

Numeric convention: JavaScript number arithmetic on the pipeline's values is
modelled by exact rational arithmetic over the rationals; the two
transcendental ingredients (Math.PI and Math.sin) are modelled over the real
numbers.  JavaScript array reads a[k] are modelled by List.getD k 0; every
index the source uses is reduced modulo the array length exactly as written
in the source.  The platform hash primitive crypto.subtle.digest is external
to the repository, so the pipeline is parameterised by the byte array it
returns (a function argument sha256 : String to List of bytes).
-/

/-- The JavaScript remainder operator at the pipeline's call sites: every
dividend in the pipeline is nonnegative and every divisor is positive, where
the truncating JS remainder coincides with this floor-based remainder. -/
def jsRem (x y : ℚ) : ℚ := x - y * (⌊x / y⌋ : ℚ)

/-- GOLDEN_ANGLE constant, hash-encoder.js line 32. -/
def GOLDEN_ANGLE : ℚ := 137.50776405003785

/-- The record returned by hashToSphericalCoords, hash-encoder.js
lines 88-97. -/
structure SphericalPoint where
  longitude : ℚ
  latitude : ℚ
  radius : ℚ
  colorShift : ℚ
  sizeVariance : ℚ
  glowStrength : ℚ
  twistFactor : ℚ
  depthBias : ℚ
deriving DecidableEq

/-- hashToSphericalCoords, hash-encoder.js lines 38-98: converts hash bytes
into spherical coordinates plus secondary modulation values for one geometry
point.  The source indexes as hashNumbers[(offset + c) % len]. -/
def hashToSphericalCoords (hashNumbers : List ℕ) (index : ℕ) : SphericalPoint :=
  let len := hashNumbers.length
  let offset := (index * 5) % len
  let v1 := hashNumbers.getD (offset % len) 0
  let v2 := hashNumbers.getD ((offset + 1) % len) 0
  let v3 := hashNumbers.getD ((offset + 2) % len) 0
  let v4 := hashNumbers.getD ((offset + 3) % len) 0
  let v5 := hashNumbers.getD ((offset + 4) % len) 0
  let v6 := hashNumbers.getD ((offset + 6) % len) 0
  let v7 := hashNumbers.getD ((offset + 7) % len) 0
  let v8 := hashNumbers.getD ((offset + 8) % len) 0
  let v9 := hashNumbers.getD ((offset + 9) % len) 0
  let v10 := hashNumbers.getD ((offset + 10) % len) 0
  let v11 := hashNumbers.getD ((offset + 11) % len) 0
  let v12 := hashNumbers.getD ((offset + 12) % len) 0
  let v13 := hashNumbers.getD ((offset + 13) % len) 0
  let v14 := hashNumbers.getD ((offset + 14) % len) 0
  { longitude := jsRem (((v1 : ℚ) * 256 + (v2 : ℚ)) / 65535 * 360 + (index : ℚ) * GOLDEN_ANGLE) 360
    latitude := ((v3 : ℚ) * 256 + (v4 : ℚ)) / 65535 * 180 - 90
    radius := 0.5 + (v5 : ℚ) / 255 * 0.9
    colorShift := ((v6 : ℚ) * 256 + (v7 : ℚ)) / 65535
    sizeVariance := ((v8 : ℚ) * 256 + (v9 : ℚ)) / 65535
    glowStrength := ((v10 : ℚ) * 256 + (v11 : ℚ)) / 65535
    twistFactor := ((v12 : ℚ) * 256 + (v13 : ℚ)) / 65535
    depthBias := (v14 : ℚ) / 255 }

/-- The index set of every array read hashToSphericalCoords performs for one
point (hash-encoder.js lines 43-61): offsets 0-4 and 6-14 from the 5-byte
stride base, each reduced modulo the array length. -/
def sphericalAccessIndices (len index : ℕ) : List ℕ :=
  let offset := (index * 5) % len
  [offset % len, (offset + 1) % len, (offset + 2) % len, (offset + 3) % len,
   (offset + 4) % len, (offset + 6) % len, (offset + 7) % len, (offset + 8) % len,
   (offset + 9) % len, (offset + 10) % len, (offset + 11) % len, (offset + 12) % len,
   (offset + 13) % len, (offset + 14) % len]

/-- The sixteen lowercase hexadecimal digit characters, as produced by the
JavaScript toString with radix 16. -/
def hexDigits : List Char := "0123456789abcdef".toList

/-- One hex digit character of value d. -/
def hexDigitChar (d : ℕ) : Char := hexDigits.getD d '0'

/-- Base-16 digit recursion with explicit fuel (structural, so that the
kernel can evaluate it); the quotient n / 16 strictly decreases, so fuel n
always suffices for argument n. -/
def natToHexCharsAux : ℕ → ℕ → List Char
  | 0, n => [hexDigitChar n]
  | fuel + 1, n =>
    if n < 16 then [hexDigitChar n]
    else natToHexCharsAux fuel (n / 16) ++ [hexDigitChar (n % 16)]

/-- Base-16 rendering of a natural number, most significant digit first,
as the JavaScript toString with radix 16 renders an integer. -/
def natToHexChars (n : ℕ) : List Char := natToHexCharsAux n n

/-- padStart(2, zero-character) on a list of characters. -/
def padStart2 (l : List Char) : List Char := List.replicate (2 - l.length) '0' ++ l

/-- One digest byte rendered as two lowercase hex characters,
hash-encoder.js line 14. -/
def byteToHexChars (b : ℕ) : List Char := padStart2 (natToHexChars b)

/-- The rendering step of generateHash, hash-encoder.js lines 13-14: each
byte of the digest mapped to two-character lowercase hex and joined.
The digest bytes themselves come from the external platform primitive. -/
def digestToHexChars (bytes : List ℕ) : List Char := (bytes.map byteToHexChars).flatten

/-- Numeric value of one hex character, as parseInt with radix 16 values the
characters generateHash produces. -/
def hexCharVal (c : Char) : ℕ := hexDigits.indexOf c

/-- hexToNumbers, hash-encoder.js lines 20-26: the hex string split into
two-character chunks, each parsed as one byte. -/
def hexPairsToNumbers : List Char → List ℕ
  | c1 :: c2 :: rest => (hexCharVal c1 * 16 + hexCharVal c2) :: hexPairsToNumbers rest
  | [c] => [hexCharVal c]
  | [] => []

/-- hexToNumbers on the character list of the hash string. -/
def hexToNumbers (s : List Char) : List ℕ := hexPairsToNumbers s

/-- mandala.js line 90: numPoints = 8 + (hashNumbers[0] % 8). -/
def numPointsOf (h : List ℕ) : ℕ := 8 + h.getD 0 0 % 8

/-- mandala.js line 91: numRings = 3 + (hashNumbers[1] % 5). -/
def numRingsOf (h : List ℕ) : ℕ := 3 + h.getD 1 0 % 5

/-- mandala.js line 92: primarySymmetry = [6,8,12,16][hashNumbers[2] % 4]. -/
def primarySymmetryOf (h : List ℕ) : ℕ := [6, 8, 12, 16].getD (h.getD 2 0 % 4) 0

/-- mandala.js line 93: baseHue = hashNumbers[3] % 360. -/
def baseHueOf (h : List ℕ) : ℕ := h.getD 3 0 % 360

/-- mandala.js line 94: complexity = 1 + (hashNumbers[4] % 3). -/
def complexityOf (h : List ℕ) : ℕ := 1 + h.getD 4 0 % 3

/-- mandala.js line 97: connectionSkip = 1 + (hashNumbers[5] % 7). -/
def connectionSkipOf (h : List ℕ) : ℕ := 1 + h.getD 5 0 % 7

/-- mandala.js line 98: secondarySymmetry = [3,5,7,9][hashNumbers[6] % 4]. -/
def secondarySymmetryOf (h : List ℕ) : ℕ := [3, 5, 7, 9].getD (h.getD 6 0 % 4) 0

/-- mandala.js line 99: projectionType = hashNumbers[7] % 3. -/
def projectionTypeOf (h : List ℕ) : ℕ := h.getD 7 0 % 3

/-- mandala.js line 100: the fixed table of Lissajous ratio pairs. -/
def lissajousPairs : List (ℕ × ℕ) := [(3, 2), (4, 3), (5, 4), (5, 3), (7, 4), (6, 5)]

/-- mandala.js line 101: pair = lissajousPairs[hashNumbers[8] % length]. -/
def lissajousPairOf (h : List ℕ) : ℕ × ℕ :=
  lissajousPairs.getD (h.getD 8 0 % lissajousPairs.length) (0, 0)

/-- mandala.js line 104: lissajousDelta = (hashNumbers[9] / 255) * Math.PI. -/
noncomputable def lissajousDeltaOf (h : List ℕ) : ℝ := (h.getD 9 0 : ℝ) / 255 * Real.pi

/-- mandala.js line 107: pulseAmplitude = 0.05 + (hashNumbers[10]/255) * 0.15. -/
def pulseAmplitudeOf (h : List ℕ) : ℚ := 0.05 + (h.getD 10 0 : ℚ) / 255 * 0.15

/-- mandala.js line 108: pulseSpeed = 0.015 + (hashNumbers[11]/255) * 0.03. -/
def pulseSpeedOf (h : List ℕ) : ℚ := 0.015 + (h.getD 11 0 : ℚ) / 255 * 0.03

/-- mandala.js line 113: speedX = (hashNumbers[15]/255) * 0.0008 + 0.0002. -/
def speedXOf (h : List ℕ) : ℚ := (h.getD 15 0 : ℚ) / 255 * 0.0008 + 0.0002

/-- mandala.js line 114: speedY = (hashNumbers[16]/255) * 0.0008 + 0.0002. -/
def speedYOf (h : List ℕ) : ℚ := (h.getD 16 0 : ℚ) / 255 * 0.0008 + 0.0002

/-- mandala.js line 118: tiltAmplitudeX = 0.15 + (hashNumbers[17]/255) * 0.30. -/
def tiltAmplitudeXOf (h : List ℕ) : ℚ := 0.15 + (h.getD 17 0 : ℚ) / 255 * 0.30

/-- mandala.js line 119: tiltAmplitudeY = 0.15 + (hashNumbers[18]/255) * 0.30. -/
def tiltAmplitudeYOf (h : List ℕ) : ℚ := 0.15 + (h.getD 18 0 : ℚ) / 255 * 0.30

/-- mandala.js line 123: tiltPhaseOffset = (hashNumbers[19]/255) * Math.PI * 2. -/
noncomputable def tiltPhaseOffsetOf (h : List ℕ) : ℝ := (h.getD 19 0 : ℝ) / 255 * Real.pi * 2

/-- part_007 line 363: skipEvolutionSpeed = 0.0005 + (hashNumbers[20]/255) * 0.001. -/
def skipEvolutionSpeedOf (h : List ℕ) : ℚ := 0.0005 + (h.getD 20 0 : ℚ) / 255 * 0.001

/-- part_007 line 364: lissajousEvolutionSpeed = 0.001 + (hashNumbers[21]/255) * 0.004. -/
def lissajousEvolutionSpeedOf (h : List ℕ) : ℚ := 0.001 + (h.getD 21 0 : ℚ) / 255 * 0.004

/-- part_007 line 365: symmetryEvolutionSpeed = 0.0002 + (hashNumbers[22]/255) * 0.0008. -/
def symmetryEvolutionSpeedOf (h : List ℕ) : ℚ := 0.0002 + (h.getD 22 0 : ℚ) / 255 * 0.0008

/-- The mutable fields of the v32 MandalaGenerator instance (mandala.js
lines 22-70) that take part in generation and animation. -/
structure GenState where
  time : ℚ
  points : List SphericalPoint
  numRings : ℕ
  primarySymmetry : ℕ
  secondarySymmetry : ℕ
  baseHue : ℕ
  complexity : ℕ
  connectionSkip : ℕ
  projectionType : ℕ
  lissajousA : ℕ
  lissajousB : ℕ
  lissajousDelta : ℝ
  rotX : ℚ
  rotY : ℚ
  rotZ : ℚ
  speedX : ℚ
  speedY : ℚ
  speedZ : ℚ
  tiltAmplitudeX : ℚ
  tiltAmplitudeY : ℚ
  tiltPhaseOffset : ℝ
  hashNumbers : List ℕ
  fullHash : List Char
  intentionText : String
  showHash : Bool
  pulseAmplitude : ℚ
  pulseSpeed : ℚ

/-- The v32 constructor state, mandala.js lines 22-70.  tiltPhaseOffset is
not assigned by the constructor (it is first assigned in generate); it is
modelled as 0 here. -/
noncomputable def initialState : GenState where
  time := 0
  points := []
  numRings := 0
  primarySymmetry := 0
  secondarySymmetry := 0
  baseHue := 0
  complexity := 0
  connectionSkip := 1
  projectionType := 0
  lissajousA := 3
  lissajousB := 2
  lissajousDelta := 0
  rotX := 0
  rotY := 0
  rotZ := 0
  speedX := 0
  speedY := 0
  speedZ := -0.005
  tiltAmplitudeX := 0.2
  tiltAmplitudeY := 0.2
  tiltPhaseOffset := 0
  hashNumbers := []
  fullHash := []
  intentionText := ""
  showHash := true
  pulseAmplitude := 0.10
  pulseSpeed := 0.02

/-- MandalaGenerator.generate, mandala.js lines 83-136 (v32): hashes the
intention through the external primitive, decodes the hex string back to
bytes, extracts every parameter from fixed byte offsets, resets the three
rotation angles (the time accumulator is not touched by this method), and
rebuilds the point field.  Returns the updated instance state. -/
noncomputable def generate (sha256 : String → List ℕ) (st : GenState)
    (intentionText : String) : GenState :=
  let hash := digestToHexChars (sha256 intentionText)
  let hn := hexToNumbers hash
  { st with
    intentionText := intentionText
    hashNumbers := hn
    fullHash := hash
    numRings := numRingsOf hn
    primarySymmetry := primarySymmetryOf hn
    baseHue := baseHueOf hn
    complexity := complexityOf hn
    connectionSkip := connectionSkipOf hn
    secondarySymmetry := secondarySymmetryOf hn
    projectionType := projectionTypeOf hn
    lissajousA := (lissajousPairOf hn).1
    lissajousB := (lissajousPairOf hn).2
    lissajousDelta := lissajousDeltaOf hn
    pulseAmplitude := pulseAmplitudeOf hn
    pulseSpeed := pulseSpeedOf hn
    speedX := speedXOf hn
    speedY := speedYOf hn
    tiltAmplitudeX := tiltAmplitudeXOf hn
    tiltAmplitudeY := tiltAmplitudeYOf hn
    tiltPhaseOffset := tiltPhaseOffsetOf hn
    rotX := 0
    rotY := 0
    rotZ := 0
    points := (List.range (numPointsOf hn)).map (hashToSphericalCoords hn) }

/-- The generation outputs of one generate call: the digest (hex form and
byte form), every hash-seeded parameter, and the ordered point sequence.
The animation accumulators (time, rotX, rotY, rotZ) are deliberately not
outputs of generation. -/
noncomputable def genOutputs (st : GenState) :
    List Char × List ℕ × String × ℕ × ℕ × ℕ × ℕ × ℕ × ℕ × ℕ × ℕ × ℕ × ℝ ×
      ℚ × ℚ × ℚ × ℚ × ℚ × ℚ × ℝ × List SphericalPoint :=
  (st.fullHash, st.hashNumbers, st.intentionText, st.numRings, st.primarySymmetry,
   st.secondarySymmetry, st.baseHue, st.complexity, st.connectionSkip,
   st.projectionType, st.lissajousA, st.lissajousB, st.lissajousDelta,
   st.pulseAmplitude, st.pulseSpeed, st.speedX, st.speedY, st.tiltAmplitudeX,
   st.tiltAmplitudeY, st.tiltPhaseOffset, st.points)

/-- The mutable fields of the part_007 cosmic-style MandalaGenerator that
take part in generation. -/
structure CosmicState where
  time : ℚ
  rotationAngle : ℚ
  points : List SphericalPoint
  numRings : ℕ
  primarySymmetry : ℕ
  secondarySymmetry : ℕ
  baseHue : ℕ
  complexity : ℕ
  connectionSkip : ℕ
  lissajousA : ℕ
  lissajousB : ℕ
  lissajousDelta : ℝ
  skipEvolutionSpeed : ℚ
  lissajousEvolutionSpeed : ℚ
  symmetryEvolutionSpeed : ℚ
  hashNumbers : List ℕ
  fullHash : List Char
  intentionText : String

/-- MandalaGenerator.generate of the part_007 variant, part_007
lines 335-377: extracts the shared and cosmic parameters and resets both the
rotation accumulator and the time accumulator to 0. -/
noncomputable def cosmicGenerate (sha256 : String → List ℕ) (st : CosmicState)
    (intentionText : String) : CosmicState :=
  let hash := digestToHexChars (sha256 intentionText)
  let hn := hexToNumbers hash
  { st with
    intentionText := intentionText
    hashNumbers := hn
    fullHash := hash
    numRings := numRingsOf hn
    primarySymmetry := primarySymmetryOf hn
    baseHue := baseHueOf hn
    complexity := complexityOf hn
    connectionSkip := connectionSkipOf hn
    secondarySymmetry := secondarySymmetryOf hn
    lissajousA := (lissajousPairOf hn).1
    lissajousB := (lissajousPairOf hn).2
    lissajousDelta := lissajousDeltaOf hn
    skipEvolutionSpeed := skipEvolutionSpeedOf hn
    lissajousEvolutionSpeed := lissajousEvolutionSpeedOf hn
    symmetryEvolutionSpeed := symmetryEvolutionSpeedOf hn
    rotationAngle := 0
    time := 0
    points := (List.range (numPointsOf hn)).map (hashToSphericalCoords hn) }

/-- The ring radius fraction of ring index ring, mandala.js line 247:
ringRadius = (ring + 1) / numRings.  Ring 0 is drawn at the smallest
radius. -/
def ringRadiusOf (ring numRings : ℕ) : ℚ := ((ring : ℚ) + 1) / (numRings : ℚ)

/-- mandala.js line 252: depth = ring / (numRings - 1). -/
def depthOf (ring numRings : ℕ) : ℚ := (ring : ℚ) / ((numRings : ℚ) - 1)

/-- mandala.js line 253: depthFactor = 0.3 + depth * 1.5. -/
def depthFactorOf (ring numRings : ℕ) : ℚ := 0.3 + depthOf ring numRings * 1.5

/-- mandala.js lines 256-258 and part_007 line 447: the per-ring rotation
angle, base rotation times the ring's depth factor. -/
def ringRotationOf (baseRotation : ℚ) (ring numRings : ℕ) : ℚ :=
  baseRotation * depthFactorOf ring numRings

/-- audio.js line 77: rootFrequency = 100 + (hashNumbers[12]/255) * 60. -/
def rootFrequencyOf (h : List ℕ) : ℚ := 100 + (h.getD 12 0 : ℚ) / 255 * 60

/-- audio.js line 82: the fixed table of consonant interval ratios. -/
def harmonicIntervals : List ℚ := [1.5, 1.333, 1.25, 1.125]

/-- audio.js line 83: harmonicInterval = intervals[hashNumbers[14] % 4]. -/
def harmonicIntervalOf (h : List ℕ) : ℚ := harmonicIntervals.getD (h.getD 14 0 % 4) 0

/-- The digest byte offsets read by IntentionAudioEngine.extractAudioParams
(audio.js lines 73-84): hashNumbers[12] and hashNumbers[14]. -/
def extractAudioReadOffsets : List ℕ := [12, 14]

/-- The digest byte offsets read by the v32 MandalaGenerator.generate
parameter extraction (mandala.js lines 90-123): bytes 0-11 for structure,
geometry and breathing, bytes 15-19 for 3D rotation and tilt. -/
def generateVisualReadOffsets : List ℕ :=
  [0, 1, 2, 3, 4, 5, 6, 7, 8, 9, 10, 11, 15, 16, 17, 18, 19]

/-- The digest byte offsets read by the part_007 cosmic generate parameter
extraction (part_007 lines 341-365): bytes 0-6 and 8-11 plus the evolution
rate bytes 20-22. -/
def cosmicGenerateReadOffsets : List ℕ :=
  [0, 1, 2, 3, 4, 5, 6, 8, 9, 10, 11, 20, 21, 22]

/-- String.prototype.trim: leading and trailing whitespace removed, on the
character-list view of a string. -/
def trimChars (l : List Char) : List Char :=
  ((l.dropWhile Char.isWhitespace).reverse.dropWhile Char.isWhitespace).reverse

/-- The caller-side guard of app.js lines 71-72: the input is trimmed and a
falsy (empty) result aborts the flow before the generator is invoked. -/
def appIntentionGate (input : List Char) : Option (List Char) :=
  let intention := trimChars input
  if intention = [] then none else some intention

/-- The breathing waveform of startBreathing, mandala.js lines 406-408:
pulse = 1 + sin(time) * amplitude + sin(time * 1.6) * (amplitude * 0.2). -/
noncomputable def pulseOf (pulseAmplitude time : ℝ) : ℝ :=
  1.0 + Real.sin time * pulseAmplitude + Real.sin (time * 1.6) * (pulseAmplitude * 0.2)

/-- The SHA-256 digest of the empty string (the well-known constant
e3b0c442...b855), used as a concrete value of the external hash primitive on
the empty input. -/
def sha256EmptyBytes : List ℕ :=
  [227, 176, 196, 66, 152, 252, 28, 20, 154, 251, 244, 200, 153, 111, 185, 36,
   39, 174, 65, 228, 100, 155, 147, 76, 164, 149, 153, 27, 120, 82, 184, 85]

theorem goldenAngle_eq : GOLDEN_ANGLE = 13750776405003785 / 100000000000000 := by
  norm_num [GOLDEN_ANGLE]

theorem getD_replicate_eq (x : ℕ) : ∀ n i : ℕ, i < n → (List.replicate n x).getD i 0 = x := by
  intro n
  induction n with
  | zero => intro i hi; omega
  | succ m ih =>
    intro i hi
    cases i with
    | zero => simp [List.replicate_succ]
    | succ k => simpa [List.replicate_succ] using ih k (by omega)

theorem getD_le_of_forall_le (l : List ℕ) (i B : ℕ) (hb : ∀ b ∈ l, b ≤ B) :
    l.getD i 0 ≤ B := by
  induction l generalizing i with
  | nil => simp [List.getD]
  | cons a t ih =>
    cases i with
    | zero => simpa using hb a (by simp)
    | succ n => simpa using ih n fun b hbm => hb b (by simp [hbm])

/-- C1: generation is deterministic.  For any behaviour of the external hash
primitive and any non-empty input string, two generate calls, regardless of
the prior instance state of each, produce identical generation outputs: the
same hex digest, the same decoded byte array, the same extracted parameter
bundle (ring count, symmetry orders, hue, complexity, connection skip,
projection type, Lissajous parameters, breathing, rotation speeds, tilt) and
the same ordered point sequence.  The outputs are a pure function of the
input string alone; no wall-clock time, randomness or prior state is
consulted. -/
theorem generate_deterministic (sha256 : String → List ℕ) (s : String)
    (hs : s ≠ "") (st1 st2 : GenState) :
    genOutputs (generate sha256 st1 s) = genOutputs (generate sha256 st2 s) := rfl

/-- Witness for C1 at the input "peace", a constant hash primitive, and two
prior states that differ in their time accumulator. -/
theorem generate_deterministic_witness :
    ("peace" : String) ≠ "" ∧
      genOutputs (generate (fun _ => List.replicate 32 0) initialState "peace") =
        genOutputs (generate (fun _ => List.replicate 32 0)
          { initialState with time := 5 } "peace") :=
  ⟨by decide, generate_deterministic (fun _ => List.replicate 32 0) "peace"
    (by decide) initialState { initialState with time := 5 }⟩

/-- C9 (amended): on every successful generate call the rotation
accumulators are reset to 0, and the part_007 variant also resets the time
accumulator to 0; the v32 generator, however, leaves the time accumulator at
its prior value. -/
theorem generate_resets_rotation_not_time (sha256 : String → List ℕ)
    (st : GenState) (cst : CosmicState) (s : String) :
    (generate sha256 st s).rotX = 0 ∧ (generate sha256 st s).rotY = 0 ∧
      (generate sha256 st s).rotZ = 0 ∧ (generate sha256 st s).time = st.time ∧
      (cosmicGenerate sha256 cst s).rotationAngle = 0 ∧
      (cosmicGenerate sha256 cst s).time = 0 :=
  ⟨rfl, rfl, rfl, rfl, rfl, rfl⟩

/-- C9 counterexample: a v32 generate call made while the time accumulator
holds 1 leaves it at 1, not 0: the v32 generator resets only the rotation
accumulators, not the time accumulator. -/
theorem generate_time_not_reset_cex :
    (generate (fun _ => List.replicate 32 0) { initialState with time := 1 }
        "peace").time = 1 ∧ (1 : ℚ) ≠ 0 :=
  ⟨rfl, by norm_num⟩

/-- C4 (amended): empty-input rejection happens in the caller, not the core.
The app.js guard trims the input and yields nothing to generate for the
empty string, while the core generate itself performs no emptiness check:
for every hash primitive and prior state it builds a point field of
8 + (byte0 mod 8) points, which is never empty, from the hash of the empty
string. -/
theorem emptyInput_rejected_by_caller_not_core (sha256 : String → List ℕ)
    (st : GenState) :
    appIntentionGate [] = none ∧
      (generate sha256 st "").points.length =
        numPointsOf (hexToNumbers (digestToHexChars (sha256 ""))) ∧
      0 < numPointsOf (hexToNumbers (digestToHexChars (sha256 ""))) := by
  refine ⟨rfl, ?_, ?_⟩
  · simp [generate]
  · unfold numPointsOf; omega

/-- C4 counterexample: with the external primitive returning the well-known
SHA-256 digest of the empty string, the core generate called on the empty
string silently produces a full pattern, an 11-point field and a
64-character hex signature, instead of signalling an error and producing no
bundle. -/
theorem generate_empty_input_cex :
    (generate (fun _ => sha256EmptyBytes) initialState "").points.length = 11 ∧
      (generate (fun _ => sha256EmptyBytes) initialState "").fullHash.length = 64 :=
  ⟨rfl, rfl⟩

/-- C3: evaluating the parallax formulas at numRings = 3 and base rotation 1
shows ring 0 is drawn at the smallest radius (innermost) yet receives depth
factor 0.3 and per-ring rotation 0.3, while the outermost ring 2 receives
depth factor 1.8 and rotation 1.8, exactly 6 times faster: the code gives
the innermost ring the slowest rotation, contradicting the claimed invariant
and the source's own comment that inner rings rotate faster. -/
theorem parallax_innermost_slowest :
    ringRadiusOf 0 3 < ringRadiusOf 2 3 ∧
      ringRotationOf 1 0 3 = 0.3 ∧ ringRotationOf 1 2 3 = 1.8 ∧
      ringRotationOf 1 2 3 = 6 * ringRotationOf 1 0 3 ∧
      ¬ ringRotationOf 1 2 3 < ringRotationOf 1 0 3 := by
  refine ⟨by norm_num [ringRadiusOf], ?_, ?_, ?_, ?_⟩ <;>
    norm_num [ringRotationOf, depthFactorOf, depthOf]

/-- C8: the digest byte offsets read by the audio parameter extraction
(bytes 12 and 14) never appear among the byte offsets read by the visual
parameter extraction of generate, neither in the v32 generator (bytes 0-11
and 15-19) nor in the part_007 cosmic variant (bytes 0-6, 8-11 and
20-22). -/
theorem audio_visual_offsets_disjoint (a : ℕ) (ha : a ∈ extractAudioReadOffsets) :
    a ∉ generateVisualReadOffsets ∧ a ∉ cosmicGenerateReadOffsets := by
  fin_cases ha <;> exact ⟨by decide, by decide⟩

/-- Witness for C8 at offset 12. -/
theorem audio_visual_offsets_disjoint_witness :
    12 ∈ extractAudioReadOffsets ∧
      (12 ∉ generateVisualReadOffsets ∧ 12 ∉ cosmicGenerateReadOffsets) :=
  ⟨by decide, audio_visual_offsets_disjoint 12 (by decide)⟩

theorem audio_reads_only_its_offsets (h1 h2 : List ℕ)
    (hag : ∀ i ∈ extractAudioReadOffsets, h1.getD i 0 = h2.getD i 0) :
    rootFrequencyOf h1 = rootFrequencyOf h2 ∧
      harmonicIntervalOf h1 = harmonicIntervalOf h2 := by
  have h12 := hag 12 (by decide)
  have h14 := hag 14 (by decide)
  unfold rootFrequencyOf harmonicIntervalOf
  rw [h12, h14]
  exact ⟨rfl, rfl⟩

/-- C2 (amended): for every 32-byte digest, pointCount lies in [8,15],
ringCount in [3,7], primarySymmetry in the set 6, 8, 12, 16, baseHue in
[0,360); pulseAmplitude lies in the closed interval [0.05,0.20] and
pulseSpeed in the closed interval [0.015,0.045] — the upper ends are
attained at byte value 255, so the claimed half-open upper bounds do not
hold on the all-0xFF digest. -/
theorem extracted_parameter_ranges (h : List ℕ) (hlen : h.length = 32)
    (hb : ∀ b ∈ h, b ≤ 255) :
    (8 ≤ numPointsOf h ∧ numPointsOf h ≤ 15) ∧
      (3 ≤ numRingsOf h ∧ numRingsOf h ≤ 7) ∧
      primarySymmetryOf h ∈ ([6, 8, 12, 16] : List ℕ) ∧
      baseHueOf h < 360 ∧
      (0.05 ≤ pulseAmplitudeOf h ∧ pulseAmplitudeOf h ≤ 0.20) ∧
      (0.015 ≤ pulseSpeedOf h ∧ pulseSpeedOf h ≤ 0.045) := by
  have hb10 : (h.getD 10 0 : ℚ) ≤ 255 := by
    exact_mod_cast getD_le_of_forall_le h 10 255 hb
  have hb11 : (h.getD 11 0 : ℚ) ≤ 255 := by
    exact_mod_cast getD_le_of_forall_le h 11 255 hb
  refine ⟨⟨?_, ?_⟩, ⟨?_, ?_⟩, ?_, ?_, ⟨?_, ?_⟩, ⟨?_, ?_⟩⟩
  · unfold numPointsOf; omega
  · unfold numPointsOf
    have := Nat.mod_lt (h.getD 0 0) (show 0 < 8 by norm_num)
    omega
  · unfold numRingsOf; omega
  · unfold numRingsOf
    have := Nat.mod_lt (h.getD 1 0) (show 0 < 5 by norm_num)
    omega
  · unfold primarySymmetryOf
    set k := h.getD 2 0 % 4 with hk
    have h4 : k < 4 := hk ▸ Nat.mod_lt _ (by norm_num)
    interval_cases k <;> decide
  · exact Nat.mod_lt _ (by norm_num)
  · unfold pulseAmplitudeOf
    have : (0 : ℚ) ≤ (h.getD 10 0 : ℚ) / 255 * 0.15 := by positivity
    linarith
  · unfold pulseAmplitudeOf
    have : (h.getD 10 0 : ℚ) / 255 ≤ 1 := by
      rw [div_le_one (by norm_num)]; exact hb10
    nlinarith
  · unfold pulseSpeedOf
    have : (0 : ℚ) ≤ (h.getD 11 0 : ℚ) / 255 * 0.03 := by positivity
    linarith
  · unfold pulseSpeedOf
    have : (h.getD 11 0 : ℚ) / 255 ≤ 1 := by
      rw [div_le_one (by norm_num)]; exact hb11
    nlinarith

/-- Witness for C2 (amended) at the all-0x00 digest. -/
theorem extracted_parameter_ranges_witness :
    (List.replicate 32 0 : List ℕ).length = 32 ∧
      ((8 ≤ numPointsOf (List.replicate 32 0) ∧ numPointsOf (List.replicate 32 0) ≤ 15) ∧
        (3 ≤ numRingsOf (List.replicate 32 0) ∧ numRingsOf (List.replicate 32 0) ≤ 7) ∧
        primarySymmetryOf (List.replicate 32 0) ∈ ([6, 8, 12, 16] : List ℕ) ∧
        baseHueOf (List.replicate 32 0) < 360 ∧
        (0.05 ≤ pulseAmplitudeOf (List.replicate 32 0) ∧
          pulseAmplitudeOf (List.replicate 32 0) ≤ 0.20) ∧
        (0.015 ≤ pulseSpeedOf (List.replicate 32 0) ∧
          pulseSpeedOf (List.replicate 32 0) ≤ 0.045)) :=
  ⟨by decide, extracted_parameter_ranges (List.replicate 32 0) (by decide) (by decide)⟩

/-- C2 counterexample: on the all-0xFF digest the half-open upper bounds
claimed for the breathing parameters fail: pulseAmplitude equals 0.20
exactly and pulseSpeed equals 0.045 exactly. -/
theorem pulse_bounds_attained_cex :
    pulseAmplitudeOf (List.replicate 32 255) = 0.20 ∧
      ¬ pulseAmplitudeOf (List.replicate 32 255) < 0.20 ∧
      pulseSpeedOf (List.replicate 32 255) = 0.045 ∧
      ¬ pulseSpeedOf (List.replicate 32 255) < 0.045 := by
  have h10 := getD_replicate_eq 255 32 10 (by omega)
  have h11 := getD_replicate_eq 255 32 11 (by omega)
  unfold pulseAmplitudeOf pulseSpeedOf
  rw [h10, h11]
  norm_num

/-- C7: for a 32-byte digest every array access hashToSphericalCoords
performs, at any point index (including indices whose 5-byte stride offset
exceeds 32), is reduced modulo the array length and is therefore strictly
in bounds. -/
theorem sphericalAccess_inBounds (h : List ℕ) (index k : ℕ)
    (hlen : h.length = 32) (hk : k ∈ sphericalAccessIndices h.length index) :
    k < h.length := by
  have hpos : 0 < h.length := by omega
  unfold sphericalAccessIndices at hk
  simp only [List.mem_cons, List.not_mem_nil, or_false] at hk
  rcases hk with rfl | rfl | rfl | rfl | rfl | rfl | rfl | rfl | rfl | rfl | rfl | rfl | rfl | rfl <;>
    exact Nat.mod_lt _ hpos

/-- Witness for C7 at point index 7, whose stride base 35 exceeds 32 and
wraps to 3. -/
theorem sphericalAccess_inBounds_witness :
    (List.replicate 32 0 : List ℕ).length = 32 ∧
      3 ∈ sphericalAccessIndices (List.replicate 32 0 : List ℕ).length 7 ∧
      3 < (List.replicate 32 0 : List ℕ).length :=
  ⟨by decide, by decide,
    sphericalAccess_inBounds (List.replicate 32 0) 7 3 (by decide) (by decide)⟩

set_option maxRecDepth 8192 in
theorem byteToHexChars_length_lt256 : ∀ b < 256, (byteToHexChars b).length = 2 := by decide

set_option maxRecDepth 8192 in
theorem byteToHexChars_mem_lt256 : ∀ b < 256, ∀ c ∈ byteToHexChars b, c ∈ hexDigits := by decide

theorem digestToHexChars_length (bytes : List ℕ) (hb : ∀ b ∈ bytes, b < 256) :
    (digestToHexChars bytes).length = 2 * bytes.length := by
  induction bytes with
  | nil => rfl
  | cons a t ih =>
    have ha := hb a (by simp)
    have ht := ih fun b hbm => hb b (by simp [hbm])
    unfold digestToHexChars at ht ⊢
    rw [List.map_cons, List.flatten_cons, List.length_append,
      byteToHexChars_length_lt256 a ha, ht]
    simp
    omega

theorem digestToHexChars_mem (bytes : List ℕ) (hb : ∀ b ∈ bytes, b < 256) :
    ∀ c ∈ digestToHexChars bytes, c ∈ hexDigits := by
  induction bytes with
  | nil => simp [digestToHexChars]
  | cons a t ih =>
    intro c hc
    unfold digestToHexChars at hc
    rw [List.map_cons, List.flatten_cons, List.mem_append] at hc
    rcases hc with hc | hc
    · exact byteToHexChars_mem_lt256 a (hb a (by simp)) c hc
    · exact ih (fun b hbm => hb b (by simp [hbm])) c hc

/-- C6: for every 32-byte digest the generateHash rendering is a
64-character string of lowercase hexadecimal digits, and the two substrings
the signature overlay draws (characters 0-31 and characters 32-63)
concatenate to exactly the complete hash, so the full digest is recoverable
from the rendered signature text. -/
theorem fullHash_recoverable (bytes : List ℕ) (hlen : bytes.length = 32)
    (hb : ∀ b ∈ bytes, b < 256) :
    (digestToHexChars bytes).length = 64 ∧
      (∀ c ∈ digestToHexChars bytes, c ∈ hexDigits) ∧
      (digestToHexChars bytes).take 32 ++ (digestToHexChars bytes).drop 32 =
        digestToHexChars bytes :=
  ⟨by rw [digestToHexChars_length bytes hb, hlen], digestToHexChars_mem bytes hb,
    List.take_append_drop 32 _⟩

/-- Witness for C6 at the all-0x00 digest. -/
theorem fullHash_recoverable_witness :
    (List.replicate 32 0 : List ℕ).length = 32 ∧
      ((digestToHexChars (List.replicate 32 0)).length = 64 ∧
        (∀ c ∈ digestToHexChars (List.replicate 32 0), c ∈ hexDigits) ∧
        (digestToHexChars (List.replicate 32 0)).take 32 ++
            (digestToHexChars (List.replicate 32 0)).drop 32 =
          digestToHexChars (List.replicate 32 0)) :=
  ⟨by decide, fullHash_recoverable (List.replicate 32 0) (by decide) (by decide)⟩

/-- C10: for every digest-derived pulse amplitude (whose byte seed is at
most 255, so the amplitude never exceeds 0.05 + 0.15 = 0.2) and every value
of the time accumulator, the two-harmonic breathing pulse lies in
[1 - 1.2 amplitude, 1 + 1.2 amplitude] and is strictly positive: the
per-frame scale multiplier never reaches zero and never inverts the
geometry. -/
theorem pulse_strictly_positive (h : List ℕ) (A t : ℝ)
    (hb : ∀ b ∈ h, b ≤ 255) (hA : A = ((pulseAmplitudeOf h : ℚ) : ℝ)) :
    1 - 1.2 * A ≤ pulseOf A t ∧ pulseOf A t ≤ 1 + 1.2 * A ∧ 0 < pulseOf A t := by
  have hbyte : h.getD 10 0 ≤ 255 := getD_le_of_forall_le h 10 255 hb
  have hA1 : (0.05 : ℝ) ≤ A := by
    rw [hA]
    unfold pulseAmplitudeOf
    push_cast
    have : (0 : ℝ) ≤ (h.getD 10 0 : ℝ) / 255 * 0.15 := by positivity
    linarith
  have hA2 : A ≤ 0.2 := by
    rw [hA]
    unfold pulseAmplitudeOf
    push_cast
    have hc : (h.getD 10 0 : ℝ) ≤ 255 := by exact_mod_cast hbyte
    have : (h.getD 10 0 : ℝ) / 255 ≤ 1 := by
      rw [div_le_one (by norm_num)]
      exact hc
    nlinarith
  have hs1 := Real.neg_one_le_sin t
  have hs2 := Real.sin_le_one t
  have hs3 := Real.neg_one_le_sin (t * 1.6)
  have hs4 := Real.sin_le_one (t * 1.6)
  unfold pulseOf
  refine ⟨by nlinarith, by nlinarith, by nlinarith⟩

/-- Witness for C10 at the all-0x00 digest and time 0. -/
theorem pulse_strictly_positive_witness :
    (∀ b ∈ (List.replicate 32 0 : List ℕ), b ≤ 255) ∧
      (1 - 1.2 * ((pulseAmplitudeOf (List.replicate 32 0) : ℚ) : ℝ) ≤
          pulseOf ((pulseAmplitudeOf (List.replicate 32 0) : ℚ) : ℝ) 0 ∧
        pulseOf ((pulseAmplitudeOf (List.replicate 32 0) : ℚ) : ℝ) 0 ≤
          1 + 1.2 * ((pulseAmplitudeOf (List.replicate 32 0) : ℚ) : ℝ) ∧
        0 < pulseOf ((pulseAmplitudeOf (List.replicate 32 0) : ℚ) : ℝ) 0) :=
  ⟨by decide, pulse_strictly_positive (List.replicate 32 0) _ 0 (by decide) rfl⟩

theorem longitude_unfold (h : List ℕ) (index : ℕ) :
    (hashToSphericalCoords h index).longitude =
      jsRem ((((h.getD ((index * 5) % h.length % h.length) 0 * 256 +
            h.getD (((index * 5) % h.length + 1) % h.length) 0 : ℕ) : ℤ) : ℚ) / 65535 * 360 +
          (index : ℚ) * GOLDEN_ANGLE) 360 := by
  simp only [hashToSphericalCoords]
  congr 1
  push_cast
  ring

theorem jsRem_golden_ne (n₁ n₂ : ℤ) (i j : ℕ) (hi : i < 32) (hj : j < 32)
    (hne : i ≠ j) :
    jsRem ((n₁ : ℚ) / 65535 * 360 + (i : ℚ) * GOLDEN_ANGLE) 360 ≠
      jsRem ((n₂ : ℚ) / 65535 * 360 + (j : ℚ) * GOLDEN_ANGLE) 360 := by
  intro heq
  simp only [jsRem] at heq
  set m₁ : ℤ := ⌊((n₁ : ℚ) / 65535 * 360 + (i : ℚ) * GOLDEN_ANGLE) / 360⌋ with hm₁
  set m₂ : ℤ := ⌊((n₂ : ℚ) / 65535 * 360 + (j : ℚ) * GOLDEN_ANGLE) / 360⌋ with hm₂
  have hkey : ((i : ℤ) - (j : ℤ)) * 13750776405003785 * 65535 =
      36000000000000000 * ((m₁ - m₂) * 65535 - (n₁ - n₂)) := by
    have hq : ((((i : ℤ) - (j : ℤ)) * 13750776405003785 * 65535 : ℤ) : ℚ) =
        ((36000000000000000 * ((m₁ - m₂) * 65535 - (n₁ - n₂)) : ℤ) : ℚ) := by
      push_cast
      rw [goldenAngle_eq] at heq
      linear_combination (6553500000000000000 : ℚ) * heq
    exact_mod_cast hq
  have hdvd : (131072 : ℤ) ∣ ((i : ℤ) - (j : ℤ)) * (13750776405003785 * 65535) :=
    ⟨274658203125 * ((m₁ - m₂) * 65535 - (n₁ - n₂)), by linear_combination hkey⟩
  have hcop : IsCoprime (131072 : ℤ) (13750776405003785 * 65535) := by
    rw [Int.isCoprime_iff_gcd_eq_one]
    decide
  have hk : (131072 : ℤ) ∣ ((i : ℤ) - (j : ℤ)) := hcop.dvd_of_dvd_mul_right hdvd
  rcases hk with ⟨c, hc⟩
  clear heq hm₁ hm₂ hkey hdvd hcop
  omega

/-- C5: golden-angle non-coincidence.  For every digest byte array and any
two distinct point indices below 32 (so in particular for every point count
below 32, covering every count up to 16 the extractor can produce), the
longitudes hashToSphericalCoords assigns are distinct: the stored longitude
is already reduced mod 360, and the golden-angle offset of
index times 137.50776405003785 degrees guarantees the two-byte-derived base
longitudes can never realign an integer multiple of 360 apart. -/
theorem longitude_no_collision (h : List ℕ) (i j : ℕ)
    (hi : i < 32) (hj : j < 32) (hne : i ≠ j) :
    (hashToSphericalCoords h i).longitude ≠ (hashToSphericalCoords h j).longitude := by
  rw [longitude_unfold h i, longitude_unfold h j]
  exact jsRem_golden_ne _ _ i j hi hj hne

/-- Witness for C5 at the all-0x00 digest and the point indices 0 and 1. -/
theorem longitude_no_collision_witness :
    (0 : ℕ) < 32 ∧ (1 : ℕ) < 32 ∧ (0 : ℕ) ≠ 1 ∧
      (hashToSphericalCoords (List.replicate 32 0) 0).longitude ≠
        (hashToSphericalCoords (List.replicate 32 0) 1).longitude :=
  ⟨by decide, by decide, by decide,
    longitude_no_collision (List.replicate 32 0) 0 1 (by decide) (by decide) (by decide)⟩
